import Mathlib

/-!
Verification of the logger-migration rewriter `convert_logger.py`.

The tool is a regex-driven text rewriter.  We shallowly embed it by
implementing a small backtracking regular-expression engine that follows
Python `re` semantics for the constructs the source uses (literals,
character classes, `\s`, `.` (no newline), greedy and lazy `*`, optional
groups, alternation, capturing groups, leftmost search, and `re.sub`'s
left-to-right non-overlapping replacement with group references), then
transcribing each pattern of the source into the engine's syntax and
mirroring the source's functions over strings.
-/

set_option maxRecDepth 40000

set_option maxHeartbeats 4000000

namespace ConvertLogger

/-- Regular-expression syntax, covering the constructs used by the source's
patterns.  `anyc` is `.` (any character except newline), `ws` is `\s`,
`starG` and `starL` are greedy `*` and lazy `*?`, `optG` is greedy `?`,
`grp` is a numbered capturing group. -/
inductive RE where
  | eps
  | lit (c : Char)
  | anyc
  | cls (cs : List Char)
  | ws
  | seq (a b : RE)
  | alt (a b : RE)
  | starG (r : RE)
  | starL (r : RE)
  | optG (r : RE)
  | grp (n : Nat) (r : RE)
deriving Repr

/-- Characters matched by Python's `\s` (the ASCII ones; all inputs here are
ASCII). -/
def wsChars : List Char := [' ', '\t', '\n', '\r', Char.ofNat 11, Char.ofNat 12]

/-- Captured groups: group number paired with the captured text.  The most
recent capture of a number is listed first, matching Python's
last-capture-wins rule. -/
abbrev Groups := List (Nat × List Char)

/-- Backtracking matcher in continuation-passing style, mirroring Python
`re`'s leftmost/priority semantics: alternation prefers the left branch,
greedy stars prefer more iterations, lazy stars prefer fewer, and a star
iteration must consume at least one character.  `fuel` only bounds the
recursion depth; it is chosen large enough by the callers that it is never
exhausted on the inputs considered. -/
def mtch : Nat → RE → List Char → Groups →
    (List Char → Groups → Option (List Char × Groups)) →
    Option (List Char × Groups)
  | 0, _, _, _, _ => none
  | n + 1, r, s, g, k =>
    match r with
    | .eps => k s g
    | .lit c =>
      match s with
      | [] => none
      | a :: rest => if a = c then k rest g else none
    | .anyc =>
      match s with
      | [] => none
      | a :: rest => if a = '\n' then none else k rest g
    | .cls cs =>
      match s with
      | [] => none
      | a :: rest => if a ∈ cs then k rest g else none
    | .ws =>
      match s with
      | [] => none
      | a :: rest => if a ∈ wsChars then k rest g else none
    | .seq p q => mtch n p s g (fun s1 g1 => mtch n q s1 g1 k)
    | .alt p q => (mtch n p s g k).orElse (fun _ => mtch n q s g k)
    | .starG p =>
      (mtch n p s g (fun s1 g1 =>
        if s1.length < s.length then mtch n (.starG p) s1 g1 k else none)).orElse
        (fun _ => k s g)
    | .starL p =>
      (k s g).orElse (fun _ =>
        mtch n p s g (fun s1 g1 =>
          if s1.length < s.length then mtch n (.starL p) s1 g1 k else none))
    | .optG p => (mtch n p s g k).orElse (fun _ => k s g)
    | .grp m p =>
      mtch n p s g (fun s1 g1 => k s1 ((m, s.take (s.length - s1.length)) :: g1))

/-- Fuel that is ample for every pattern and input in this file: depth of a
match never exceeds a small multiple of the input length plus the pattern
size. -/
def ampleFuel (s : List Char) : Nat := 16 * s.length + 2048

/-- Try to match `r` at the start of `s`; on success return the rest of the
input and the captured groups. -/
def mtchTop (r : RE) (s : List Char) : Option (List Char × Groups) :=
  mtch (ampleFuel s) r s [] (fun s1 g1 => some (s1, g1))

/-- `re.search`: scan start positions left to right, returning the groups of
the leftmost match. -/
def searchGroups (r : RE) (s : List Char) : Option Groups :=
  match mtchTop r s with
  | some (_, g) => some g
  | none =>
    match s with
    | [] => none
    | _ :: rest => searchGroups r rest

/-- Whether `re.search` finds a match. -/
def reSearchB (r : RE) (s : List Char) : Bool := (searchGroups r s).isSome

/-- Replacement templates for `re.sub`: literal chunks and group references. -/
inductive Tpl where
  | str (cs : List Char)
  | ref (n : Nat)

/-- Look up a group in the capture list; an unmatched group is replaced by
the empty string, as Python's `re.sub` does. -/
def grpLookup (g : Groups) (n : Nat) : List Char :=
  match g.find? (fun p => p.1 = n) with
  | some p => p.2
  | none => []

/-- Instantiate a replacement template with the captured groups. -/
def instTpl (g : Groups) : List Tpl → List Char
  | [] => []
  | .str cs :: rest => cs ++ instTpl g rest
  | .ref n :: rest => grpLookup g n ++ instTpl g rest

/-- `re.sub`: repeatedly find the leftmost match, emit the instantiated
replacement, and continue after the match (non-overlapping); unmatched
positions are copied verbatim. -/
def reSubAux : Nat → RE → List Tpl → List Char → List Char
  | 0, _, _, s => s
  | n + 1, r, tpl, s =>
    match mtchTop r s with
    | some (s1, g) =>
      if s1.length < s.length then instTpl g tpl ++ reSubAux n r tpl s1
      else
        match s with
        | [] => instTpl g tpl
        | c :: rest => instTpl g tpl ++ c :: reSubAux n r tpl rest
    | none =>
      match s with
      | [] => []
      | c :: rest => c :: reSubAux n r tpl rest

/-- `re.sub` over a string. -/
def strSub (r : RE) (tpl : List Tpl) (s : String) : String :=
  ⟨reSubAux (s.data.length + 1) r tpl s.data⟩

/-- `re.search` over a string, as a Boolean. -/
def strSearch (r : RE) (s : String) : Bool := reSearchB r s.data

/-- Python's substring test `needle in hay` (prefix check). -/
def isPrefixL : List Char → List Char → Bool
  | [], _ => true
  | _ :: _, [] => false
  | a :: as, b :: bs => a = b && isPrefixL as bs

/-- Python's substring test `needle in hay`. -/
def containsSubL (needle : List Char) : List Char → Bool
  | [] => needle.isEmpty
  | c :: rest => isPrefixL needle (c :: rest) || containsSubL needle rest

/-- Python's `needle in hay` for strings. -/
def containsStr (hay needle : String) : Bool := containsSubL needle.data hay.data

/-! ### Pattern syntax helpers and the source's patterns -/

/-- A sequence of literal characters. -/
def rstr (s : String) : RE := s.data.foldr (fun c acc => RE.seq (RE.lit c) acc) RE.eps

/-- Concatenation of a list of patterns. -/
def rcat (l : List RE) : RE := l.foldr RE.seq RE.eps

/-- `\s*` (greedy). -/
def wsStar : RE := RE.starG RE.ws

/-- `\s+` (greedy). -/
def wsPlus : RE := RE.seq RE.ws wsStar

/-- Single-quote character. -/
def sqc : Char := Char.ofNat 39

/-- Double-quote character. -/
def dqc : Char := Char.ofNat 34

/-- Backtick character. -/
def bqc : Char := Char.ofNat 96

/-- Opening-brace character. -/
def obc : Char := Char.ofNat 123

/-- Closing-brace character. -/
def cbc : Char := Char.ofNat 125

/-- The character class `['"`]` (quote, double quote, backtick). -/
def quote3 : RE := RE.cls [sqc, dqc, bqc]

/-- The character class `['"]` (quote, double quote). -/
def quote2 : RE := RE.cls [sqc, dqc]

/-- Single-quote as a one-character string, for building concrete inputs. -/
def sq : String := String.singleton sqc

/-- Backtick as a one-character string, for building concrete inputs. -/
def bq : String := String.singleton bqc

/-- Source line 14, shape A of the call-site rewriter:
`logger\.error\(\s*['"`](.*?)['"`]\s*,\s*(error.*?)\s*\)` -/
def patA : RE := rcat [rstr "logger.error(", wsStar, quote3,
  RE.grp 1 (RE.starL RE.anyc), quote3, wsStar, RE.lit ',', wsStar,
  RE.grp 2 (RE.seq (rstr "error") (RE.starL RE.anyc)), wsStar, RE.lit ')']

/-- Source line 16, replacement for shape A: `logError(\2, {}, "\1")` -/
def tplA : List Tpl := [.str ("logError(").data, .ref 2,
  .str (", \x7b\x7d, \x22").data, .ref 1, .str ("\x22)").data]

/-- Source line 22, shape B of the call-site rewriter:
`logger\.error\(\s*['"`](.*?)['"`]\s*,\s*\{(.*?)\}\s*\)` -/
def patB : RE := rcat [rstr "logger.error(", wsStar, quote3,
  RE.grp 1 (RE.starL RE.anyc), quote3, wsStar, RE.lit ',', wsStar,
  RE.lit obc, RE.grp 2 (RE.starL RE.anyc), RE.lit cbc, wsStar, RE.lit ')']

/-- Source line 23, replacement for shape B: `logError(error, {\2}, "\1")` -/
def tplB : List Tpl := [.str ("logError(error, \x7b").data, .ref 2,
  .str ("\x7d, \x22").data, .ref 1, .str ("\x22)").data]

/-- Source line 32, guard of the import adder:
pattern `import\s+\{.*logError.*\}\s+from` -/
def pat32 : RE := rcat [rstr "import", wsPlus, RE.lit obc, RE.starG RE.anyc,
  rstr "logError", RE.starG RE.anyc, RE.lit cbc, wsPlus, rstr "from"]

/-- Source lines 36 and 41, existing error-handler import:
pattern `import\s+\{(.*)\}\s+from\s+(['"].*?utils/error-handler['"])` -/
def pat36 : RE := rcat [rstr "import", wsPlus, RE.lit obc,
  RE.grp 1 (RE.starG RE.anyc), RE.lit cbc, wsPlus, rstr "from", wsPlus,
  RE.grp 2 (rcat [quote2, RE.starL RE.anyc, rstr "utils/error-handler", quote2])]

/-- Source line 42, replacement appending the new name:
pattern `import {\1, logError} from \2` -/
def tpl36 : List Tpl := [.str ("import \x7b").data, .ref 1,
  .str (", logError\x7d from ").data, .ref 2]

/-- Source line 65, other uses of the old logger:
`logger\.(info|warn|debug)` -/
def pat65 : RE := rcat [rstr "logger.",
  RE.grp 1 (RE.alt (rstr "info") (RE.alt (rstr "warn") (rstr "debug")))]

/-- Source line 75, sole-name logger import:
pattern `import\s+\{\s*logger\s*\}\s+from\s+['"].*?utils/logger['"];\s*\n` -/
def patR1 : RE := rcat [rstr "import", wsPlus, RE.lit obc, wsStar,
  rstr "logger", wsStar, RE.lit cbc, wsPlus, rstr "from", wsPlus, quote2,
  RE.starL RE.anyc, rstr "utils/logger", quote2, RE.lit ';', wsStar, RE.lit '\n']

/-- Source line 82, logger inside a multi-name import:
pattern `import\s+\{(.*),\s*logger(,.*?)?\}\s+from\s+(['"].*?utils/logger['"]);\s*\n` -/
def patR2 : RE := rcat [rstr "import", wsPlus, RE.lit obc,
  RE.grp 1 (RE.starG RE.anyc), RE.lit ',', wsStar, rstr "logger",
  RE.optG (RE.grp 2 (RE.seq (RE.lit ',') (RE.starL RE.anyc))), RE.lit cbc,
  wsPlus, rstr "from", wsPlus,
  RE.grp 3 (rcat [quote2, RE.starL RE.anyc, rstr "utils/logger", quote2]),
  RE.lit ';', wsStar, RE.lit '\n']

/-- Source line 83, replacement: `import {\1\2} from \3;\n` -/
def tplR2 : List Tpl := [.str ("import \x7b").data, .ref 1, .ref 2,
  .str ("\x7d from ").data, .ref 3, .str (";\n").data]

/-- Source line 89, logger as last import element:
pattern `import\s+\{(.*),\s*logger\}\s+from\s+(['"].*?utils/logger['"]);\s*\n` -/
def patR3 : RE := rcat [rstr "import", wsPlus, RE.lit obc,
  RE.grp 1 (RE.starG RE.anyc), RE.lit ',', wsStar, rstr "logger", RE.lit cbc,
  wsPlus, rstr "from", wsPlus,
  RE.grp 2 (rcat [quote2, RE.starL RE.anyc, rstr "utils/logger", quote2]),
  RE.lit ';', wsStar, RE.lit '\n']

/-- Source line 90, replacement: `import {\1} from \2;\n` -/
def tplR3 : List Tpl := [.str ("import \x7b").data, .ref 1,
  .str ("\x7d from ").data, .ref 2, .str (";\n").data]

/-- Source line 96, empty import list:
pattern `import\s+\{\s*\}\s+from\s+['"].*?utils/logger['"];\s*\n` -/
def patR4 : RE := rcat [rstr "import", wsPlus, RE.lit obc, wsStar, RE.lit cbc,
  wsPlus, rstr "from", wsPlus, quote2, RE.starL RE.anyc, rstr "utils/logger",
  quote2, RE.lit ';', wsStar, RE.lit '\n']

/-- The empty replacement string. -/
def tplEmpty : List Tpl := []

/-- Source line 107, catch-clause pattern: `catch\s*\(\s*error\s*\)` -/
def patCatch : RE := rcat [rstr "catch", wsStar, RE.lit '(', wsStar,
  rstr "error", wsStar, RE.lit ')']

/-- Source line 108, replacement: `catch (error: unknown)` -/
def tplCatch : List Tpl := [.str ("catch (error: unknown)").data]

/-! ### Multiline import-line search (source lines 50 to 56)

The source finds all matches of `^import.*$` with `re.MULTILINE` and takes
the end offset of the last one.  A match of that pattern is exactly a line
that starts with `import`, matched up to the line's end, so we compute the
end offset of the last such line directly. -/

/-- Split on newline characters, keeping empty segments (the lines of the
text). -/
def splitNl : List Char → List (List Char)
  | [] => [[]]
  | c :: rest =>
    if c = '\n' then [] :: splitNl rest
    else
      match splitNl rest with
      | [] => [[c]]
      | l :: ls => (c :: l) :: ls

/-- End offset of the last line starting with `import`, scanning lines with
their start offsets.  Embeds `list(re.finditer(r"^import.*$", content,
re.MULTILINE))[-1].end()`. -/
def lastImportEndAux : List (List Char) → Nat → Option Nat
  | [], _ => none
  | l :: rest, pos =>
    match lastImportEndAux rest (pos + l.length + 1) with
    | some e => some e
    | none => if isPrefixL ("import").data l then some (pos + l.length) else none

/-- End offset of the last import line, if any. -/
def lastImportEnd (s : List Char) : Option Nat := lastImportEndAux (splitNl s) 0

/-! ### The source's functions (lines 6 to 160) -/

/-- Source lines 6 to 27: `replace_logger_with_logerror`, applying the
shape-A substitution then the shape-B substitution.  (The pattern compiled
at source line 11 is never used and rewrites nothing.) -/
def replace_logger_with_logerror (content : String) : String :=
  strSub patB tplB (strSub patA tplA content)

/-- The canonical import statement added by the source (line 48):
pattern `import { logError } from '@/lib/utils/error-handler';\n` -/
def import_statement : String :=
  "import \x7b logError \x7d from " ++ sq ++ "@/lib/utils/error-handler" ++ sq ++ ";\n"

/-- Source lines 29 to 60: `add_error_handler_import`. -/
def add_error_handler_import (content : String) : String :=
  if strSearch pat32 content then content
  else
    match searchGroups pat36 content.data with
    | some g =>
      if containsSubL ("logError").data (grpLookup g 1) then content
      else strSub pat36 tpl36 content
    | none =>
      match lastImportEnd content.data with
      | some e =>
        ⟨content.data.take e ++ '\n' :: import_statement.data ++ content.data.drop e⟩
      | none => import_statement ++ content

/-- Source lines 62 to 66: `check_logger_import`. -/
def check_logger_import (content : String) : Bool := strSearch pat65 content

/-- Source lines 68 to 101: `remove_logger_import`, applying the four
substitutions in order when no other logger use remains. -/
def remove_logger_import (content : String) : String :=
  if check_logger_import content then content
  else
    strSub patR4 tplEmpty (strSub patR3 tplR3 (strSub patR2 tplR2
      (strSub patR1 tplEmpty content)))

/-- Source lines 103 to 111: `modify_catch_blocks`. -/
def modify_catch_blocks (content : String) : String :=
  strSub patCatch tplCatch content

/-- The pure text transformation of `process_file` (source lines 119 to
134): the full pipeline runs only when the raw text contains
`logger.error`. -/
def transform (content : String) : String :=
  if containsStr content "logger.error" then
    modify_catch_blocks (remove_logger_import (add_error_handler_import
      (replace_logger_with_logerror content)))
  else content

/-- The two reconciliation steps in sequence (`add_error_handler_import`
then `remove_logger_import`), as run by `process_file`. -/
def importPair (content : String) : String :=
  remove_logger_import (add_error_handler_import content)

/-- Observable outcome of `process_file`: the returned Boolean, the console
lines printed, and the content written to the file (if any). -/
structure PFResult where
  changed : Bool
  printed : List String
  written : Option String
deriving DecidableEq, Repr

/-- Source lines 113 to 145: `process_file`.  File input and output are
modelled by explicit results: `readRes` is the outcome of opening and
reading the file, and `writeErr` is the error raised by the write, if any.
The source's `try`/`except` catches any such error, prints
`Error processing {path}: {e}`, and returns `False`; on a write error
nothing is (completely) written. -/
def process_file (path : String) (readRes : Except String String)
    (writeErr : Option String) : PFResult :=
  match readRes with
  | .error e => ⟨false, ["Error processing " ++ path ++ ": " ++ e], none⟩
  | .ok content =>
    let newC := transform content
    if newC = content then ⟨false, [], none⟩
    else
      match writeErr with
      | some e => ⟨false, ["Error processing " ++ path ++ ": " ++ e], none⟩
      | none => ⟨true, [], some newC⟩

/-- Source lines 147 to 160: `process_directories`, restricted to its
per-file loop: each candidate file (path, read outcome, write outcome) is
processed in order and collected when `process_file` reports a change;
processing always continues with the next file. -/
def process_directories :
    List (String × Except String String × Option String) → List String
  | [] => []
  | (p, r, w) :: rest =>
    if (process_file p r w).changed then p :: process_directories rest
    else process_directories rest

/-! ### Property formalisations and concrete inputs for the claims -/

/-- Number of non-overlapping leftmost matches of a pattern, as
`len(re.findall(pattern, s))` would report. -/
def reCountAux : Nat → RE → List Char → Nat
  | 0, _, _ => 0
  | n + 1, r, s =>
    match mtchTop r s with
    | some (s1, _) =>
      if s1.length < s.length then 1 + reCountAux n r s1
      else
        match s with
        | [] => 1
        | _ :: t => 1 + reCountAux n r t
    | none =>
      match s with
      | [] => 0
      | _ :: t => reCountAux n r t

/-- Match count over a string. -/
def reCount (r : RE) (s : String) : Nat := reCountAux (s.data.length + 1) r s.data

/-- Property formalisation (for the import-uniqueness claim): an import
declaration from the designated error-handler module path whose name list
contains `logError`, i.e. a match of
pattern `import\s+\{.*logError.*\}\s+from\s+['"].*?utils/error-handler['"]` -/
def patEHLE : RE := rcat [rstr "import", wsPlus, RE.lit obc, RE.starG RE.anyc,
  rstr "logError", RE.starG RE.anyc, RE.lit cbc, wsPlus, rstr "from", wsPlus,
  quote2, RE.starL RE.anyc, rstr "utils/error-handler", quote2]

/-- Input with two pre-existing import declarations from the error-handler
path, neither importing `logError`:
text `import {a} from '@/lib/utils/error-handler';` on one line and
text `import {b} from '@/lib/utils/error-handler';` on the next. -/
def exTwoEH : String :=
  "import \x7ba\x7d from " ++ sq ++ "@/lib/utils/error-handler" ++ sq ++
    ";\nimport \x7bb\x7d from " ++ sq ++ "@/lib/utils/error-handler" ++ sq ++ ";\n"

/-- Input with a single pre-existing error-handler import. -/
def exOneEH : String :=
  "import \x7bhandleError\x7d from " ++ sq ++ "@/lib/utils/error-handler" ++ sq ++ ";\n"

/-- Expected reconciliation result for `exOneEH`. -/
def exOneEHOut : String :=
  "import \x7bhandleError, logError\x7d from " ++ sq ++
    "@/lib/utils/error-handler" ++ sq ++ ";\n"

/-- A call whose second argument `myerror` contains the substring `error`
without starting with it: text `logger.error('m', myerror)`. -/
def exContainsError : String := "logger.error(" ++ sq ++ "m" ++ sq ++ ", myerror)"

/-- A call whose second argument is exactly `error`. -/
def exStartsError : String := "logger.error(" ++ sq ++ "m" ++ sq ++ ", error)"

/-- A call whose second argument `errorObj` starts with `error`. -/
def exStartsErrorObj : String := "logger.error(" ++ sq ++ "m" ++ sq ++ ", errorObj)"

/-- Text using `logger.log` (a non-error member access that is neither
`info`, `warn` nor `debug`) together with a sole-name logger import. -/
def exLoggerLog : String :=
  "logger.log(" ++ sq ++ "hi" ++ sq ++ ");\nimport \x7b logger \x7d from " ++
    sq ++ "@/lib/utils/logger" ++ sq ++ ";\n"

/-- Text using `logger.info` together with a sole-name logger import. -/
def exInfo : String :=
  "logger.info(" ++ sq ++ "s" ++ sq ++ ");\nimport \x7b logger \x7d from " ++
    sq ++ "@/lib/utils/logger" ++ sq ++ ";\n"

/-- Example 2 of the spec: text `logger.error('upload failed', {code: 500})`. -/
def exMeta : String :=
  "logger.error(" ++ sq ++ "upload failed" ++ sq ++ ", \x7bcode: 500\x7d)"

/-- Expected rewrite of `exMeta`. -/
def exMetaOut : String := "logError(error, \x7bcode: 500\x7d, \x22upload failed\x22)"

/-- A shape-B call whose metadata object `{f: g({}), h: 1}` contains a
closing brace followed by a parenthesis. -/
def exMetaBad : String :=
  "logger.error(" ++ sq ++ "m" ++ sq ++ ", \x7bf: g(\x7b\x7d), h: 1\x7d)"

/-- What the code actually produces for `exMetaBad` (the lazy capture stops
at the inner brace). -/
def exMetaBadOut : String := "logError(error, \x7bf: g(\x7b\x7d, \x22m\x22), h: 1\x7d)"

/-- The output the claim promises for `exMetaBad`. -/
def exMetaClaimed : String := "logError(error, \x7bf: g(\x7b\x7d), h: 1\x7d, \x22m\x22)"

/-- Example 4 of the spec: a catch clause following a converted call. -/
def exCatch : String :=
  "try \x7b\n  f();\n\x7d catch (error) \x7b\n  logError(error, \x7b\x7d, \x22failed\x22);\n\x7d"

/-- Expected rewrite of `exCatch`. -/
def exCatchOut : String :=
  "try \x7b\n  f();\n\x7d catch (error: unknown) \x7b\n  logError(error, \x7b\x7d, \x22failed\x22);\n\x7d"

/-- A catch clause that already carries the annotation. -/
def exCatchAnn : String := "catch (error: unknown)"

/-- A catch clause with a different binding name. -/
def exCatchName : String := "try \x7b f(); \x7d catch (err) \x7b g(); \x7d"

/-- A catch-all clause with no parameter. -/
def exCatchNone : String := "try \x7b f(); \x7d catch \x7b g(); \x7d"

/-- A catch clause written without the space: text `catch(error)`. -/
def exCatchNS : String := "try \x7b f(); \x7d catch(error) \x7b g(); \x7d"

/-- What the code produces for `exCatchNS`. -/
def exCatchNSOut : String := "try \x7b f(); \x7d catch (error: unknown) \x7b g(); \x7d"

/-- Input on which the import pair is not idempotent: deleting the inner
logger import concatenates the surrounding text into a fresh logger import
that only the second pass removes. -/
def exChain : String :=
  "import \x7blogError\x7d from " ++ sq ++ "z" ++ sq ++
    ";\nimport \x7b loggimport \x7b logger \x7d from " ++ sq ++ "utils/logger" ++
    sq ++ ";\ner \x7d from " ++ sq ++ "utils/logger" ++ sq ++ ";\n"

/-- Result of one application of the import pair to `exChain`. -/
def exChainOnce : String :=
  "import \x7blogError\x7d from " ++ sq ++ "z" ++ sq ++
    ";\nimport \x7b logger \x7d from " ++ sq ++ "utils/logger" ++ sq ++ ";\n"

/-- Result of two applications of the import pair to `exChain`. -/
def exChainTwice : String := "import \x7blogError\x7d from " ++ sq ++ "z" ++ sq ++ ";\n"

/-- A typical once-converted text: a logger import plus an already-rewritten
call. -/
def exPipe : String :=
  "import \x7b logger \x7d from " ++ sq ++ "@/lib/utils/logger" ++ sq ++
    ";\nlogError(error, \x7b\x7d, \x22m\x22);\n"

/-- A braced import whose name list contains `logError` only as part of the
longer name `logErrorBoundary`, from an unrelated module path. -/
def exBoundary : String :=
  "import \x7b logErrorBoundary \x7d from " ++ sq ++ "other" ++ sq ++ ";\nconst x = 1;\n"

/-- A multi-name logger import that lists `logger` first, with no other use
of the `logger` identifier anywhere. -/
def exMulti : String :=
  "import \x7b logger, helper \x7d from " ++ sq ++ "@/lib/utils/logger" ++ sq ++ ";\n"

/-- `exMulti` followed by unrelated code. -/
def exMulti2 : String := exMulti ++ "export const a = 1;\n"

/-- A text with no occurrence of `logger.error` at all. -/
def exPlain : String := "const x = 1;\n"

/-- A shape-A call whose expression `errorHandler.get(e)` begins with
`error` but contains a closing parenthesis. -/
def exTrunc : String :=
  "logger.error(" ++ sq ++ "m" ++ sq ++ ", errorHandler.get(e))"

/-- What the code produces for `exTrunc`: the lazy capture stops at the
first closing parenthesis, truncating the expression. -/
def exTruncOut : String := "logError(errorHandler.get(e, \x7b\x7d, \x22m\x22))"

/-- A shape-B call whose metadata contains a quoted value followed by a
name starting with `error`, letting shape A preempt shape B. -/
def exPreempt : String :=
  "logger.error(" ++ sq ++ "a" ++ sq ++ ", \x7bx: " ++ sq ++ "b" ++ sq ++
    ", error: 1\x7d)"

/-- What the code produces for `exPreempt`: shape A fires across the
quotes, so shape B never sees the call. -/
def exPreemptOut : String :=
  "logError(error: 1\x7d, \x7b\x7d, \x22a" ++ sq ++ ", \x7bx: " ++ sq ++ "b\x22)"

/-- A shape-B call with nested braces inside the metadata (no brace is
followed by a closing parenthesis prematurely). -/
def exNested : String :=
  "logger.error(" ++ sq ++ "m" ++ sq ++ ", \x7ba: (x ? \x7b\x7d : y)\x7d)"

/-- Expected rewrite of `exNested`: the nested braces survive intact. -/
def exNestedOut : String := "logError(error, \x7ba: (x ? \x7b\x7d : y)\x7d, \x22m\x22)"

/-- A text whose `logError` import from the error-handler path is already
present (and which still uses `logger.info`). -/
def exEHAlready : String :=
  "import \x7b logError \x7d from " ++ sq ++ "@/lib/utils/error-handler" ++ sq ++
    ";\nlogger.info(s);\n"

/-- A text containing no logging call at all. -/
def exNoCall : String := "const y = compute();\n"

/-- A multi-name logger import that lists `logger` first and again later
preceded by a comma, with no space before the closing brace. -/
def exMulti3 : String :=
  "import \x7b logger, helper, logger\x7d from " ++ sq ++ "@/lib/utils/logger" ++
    sq ++ ";\n"

/-- What the code produces for `exMulti3`: the later, comma-preceded
occurrence of `logger` is removed although `logger` is listed first. -/
def exMulti3Out : String :=
  "import \x7b logger, helper\x7d from " ++ sq ++ "@/lib/utils/logger" ++ sq ++ ";\n"

/-! ### Generic facts about the engine

`re.sub` leaves a text byte-identical whenever `re.search` finds no match
for the pattern anywhere in it.  These lemmas are used to settle the
claims that assert some text is left untouched. -/

/-- If the leftmost search finds nothing on `c :: rest`, then there is no
match at the head position and the search on `rest` finds nothing either. -/
theorem searchGroups_none_cons {r : RE} {c : Char} {rest : List Char}
    (h : searchGroups r (c :: rest) = none) :
    mtchTop r (c :: rest) = none ∧ searchGroups r rest = none := by
  cases hm : mtchTop r (c :: rest) with
  | some p =>
    obtain ⟨s1, g⟩ := p
    rw [searchGroups, hm] at h
    cases h
  | none =>
    refine ⟨rfl, ?_⟩
    rw [searchGroups, hm] at h
    exact h

/-- One step of `reSubAux` on an unmatched head position copies the head
character. -/
theorem reSubAux_cons_none {r : RE} {tpl : List Tpl} {c : Char} {rest : List Char}
    (hm : mtchTop r (c :: rest) = none) :
    reSubAux (rest.length + 1 + 1) r tpl (c :: rest) =
      c :: reSubAux (rest.length + 1) r tpl rest := by
  simp [reSubAux, hm]

/-- `re.sub` copies the whole text verbatim when its pattern matches
nowhere in it. -/
theorem reSubAux_id_of_search_none (r : RE) (tpl : List Tpl) (s : List Char)
    (h : searchGroups r s = none) : reSubAux (s.length + 1) r tpl s = s := by
  induction s with
  | nil =>
    cases hm : mtchTop r [] with
    | some p =>
      obtain ⟨s1, g⟩ := p
      rw [searchGroups, hm] at h
      cases h
    | none => simp [reSubAux, hm]
  | cons c rest ih =>
    obtain ⟨hm, h2⟩ := searchGroups_none_cons h
    show reSubAux (rest.length + 1 + 1) r tpl (c :: rest) = c :: rest
    rw [reSubAux_cons_none hm, ih h2]

/-- String-level form: a substitution whose pattern `re.search` does not
find returns its input byte-identical. -/
theorem strSub_id_of_search_false (r : RE) (tpl : List Tpl) (s : String)
    (h : strSearch r s = false) : strSub r tpl s = s := by
  have h' : searchGroups r s.data = none := by
    unfold strSearch reSearchB at h
    cases hg : searchGroups r s.data with
    | some g => rw [hg] at h; simp at h
    | none => rfl
  unfold strSub
  rw [reSubAux_id_of_search_none r tpl s.data h']

/-! ### The claims -/

/-- Claim C1, counterexample: the input `exTwoEH` contains two import
declarations from the designated error-handler path and no `logError`
anywhere; after `add_error_handler_import` followed by
`remove_logger_import`, `logError` appears in two import declarations from
that path, so it was added to more than one pre-existing declaration and
the at-most-one invariant fails. -/
theorem c1_counterexample :
    reCount patEHLE exTwoEH = 0 ∧ reCount patEHLE (importPair exTwoEH) = 2 :=
  ⟨by decide, by decide⟩

/-- Claim C1 as amended: for every input that already matches the braced
`logError`-import guard, `add_error_handler_import` contributes nothing —
the reconciliation pair collapses to the removal step alone — so an
already-present `logError` import is never duplicated; the at-most-one
invariant is not guaranteed otherwise (counterexample), and on the concrete
single-declaration input `exOneEH` the result carries exactly one
`logError` declaration from the error-handler path. -/
theorem c1_theorem :
    (∀ content : String, strSearch pat32 content = true →
        importPair content = remove_logger_import content) ∧
      importPair exOneEH = exOneEHOut ∧
      reCount patEHLE (importPair exOneEH) = 1 := by
  refine ⟨?_, by decide, by decide⟩
  intro content h
  have hadd : add_error_handler_import content = content := by
    simp [add_error_handler_import, h]
  unfold importPair
  rw [hadd]

/-- Witness for the amended claim C1: a file already importing `logError`
from the error-handler path gets nothing added by the pair. -/
theorem c1_witness : importPair exEHAlready = remove_logger_import exEHAlready :=
  c1_theorem.1 exEHAlready (by decide)

/-- Claim C2, counterexample: in `exContainsError` the second argument
`myerror` contains the substring `error`, yet
`replace_logger_with_logerror` leaves the text unchanged and produces no
`logError` call — containing `error` anywhere does not suffice; the live
substitution requires the expression to begin with `error`. -/
theorem c2_counterexample :
    containsStr "myerror" "error" = true ∧
      replace_logger_with_logerror exContainsError = exContainsError ∧
      containsStr (replace_logger_with_logerror exContainsError) "logError" = false :=
  ⟨by decide, by decide, by decide⟩

/-- Claim C2 as amended: a call whose second argument merely contains
`error` matches neither live pattern, and for every text in which neither
live pattern is found the rewriter returns the text byte-identical
(universal); when the expression begins with the literal `error` the
rewrite emits `logError(<capture>, {}, "<message>")` where the capture
extends only to the first position followed by optional whitespace and a
closing parenthesis — demonstrated on `error` and `errorObj` (rewritten as
the claim describes) and on `errorHandler.get(e)` (truncated at its inner
parenthesis). -/
theorem c2_theorem :
    (∀ content : String, strSearch patA content = false →
        strSearch patB content = false →
        replace_logger_with_logerror content = content) ∧
      replace_logger_with_logerror exStartsError = "logError(error, \x7b\x7d, \x22m\x22)" ∧
      replace_logger_with_logerror exStartsErrorObj =
        "logError(errorObj, \x7b\x7d, \x22m\x22)" ∧
      replace_logger_with_logerror exTrunc = exTruncOut := by
  refine ⟨?_, by decide, by decide, by decide⟩
  intro content h1 h2
  unfold replace_logger_with_logerror
  rw [strSub_id_of_search_false patA tplA content h1,
    strSub_id_of_search_false patB tplB content h2]

/-- Witness for the amended claim C2: a text matching neither live pattern
is returned byte-identical. -/
theorem c2_witness : replace_logger_with_logerror exNoCall = exNoCall :=
  c2_theorem.1 exNoCall (by decide) (by decide)

/-- Claim C3, counterexample: `exLoggerLog` still uses the identifier
`logger` with the non-`error` member access `logger.log`, yet
`remove_logger_import` deletes the logger import anyway — the preservation
test only looks for `logger.info`, `logger.warn` or `logger.debug`. -/
theorem c3_counterexample :
    containsStr exLoggerLog "logger.log" = true ∧
      remove_logger_import exLoggerLog = "logger.log(" ++ sq ++ "hi" ++ sq ++ ");\n" :=
  ⟨by decide, by decide⟩

/-- Claim C3 as amended: `remove_logger_import` preserves the input
untouched whenever `check_logger_import` finds a remaining occurrence of
`logger.info`, `logger.warn` or `logger.debug` (these three member
accesses, not arbitrary non-`error` ones). -/
theorem c3_theorem (content : String) (h : check_logger_import content = true) :
    remove_logger_import content = content := by
  simp [remove_logger_import, h]

/-- Witness for the amended claim C3: a text still using `logger.info`
keeps its logger import byte-identical. -/
theorem c3_witness : remove_logger_import exInfo = exInfo :=
  c3_theorem exInfo (by decide)

/-- Claim C4: for every input text without the token `logger.error`, the
transformation is the identity, no write occurs, nothing is printed, and
the file is reported unchanged (`process_file` returns `False`). -/
theorem c4_theorem (content path : String) (w : Option String)
    (h : containsStr content "logger.error" = false) :
    transform content = content ∧
      process_file path (Except.ok content) w = ⟨false, [], none⟩ := by
  have ht : transform content = content := by simp [transform, h]
  exact ⟨ht, by simp [process_file, ht]⟩

/-- Witness for claim C4 on the concrete text `exPlain`. -/
theorem c4_witness :
    transform exPlain = exPlain ∧
      process_file "a.ts" (Except.ok exPlain) none = ⟨false, [], none⟩ :=
  c4_theorem exPlain "a.ts" none (by decide)

/-- Claim C5, counterexample: for the call with metadata object
`{f: g({}), h: 1}` (which contains a closing brace followed by a closing
parenthesis), the rewriter produces a mangled call — the lazy capture stops
at the inner brace — and the output promised by the claim never appears. -/
theorem c5_counterexample :
    replace_logger_with_logerror exMetaBad = exMetaBadOut ∧
      containsStr (replace_logger_with_logerror exMetaBad) exMetaClaimed = false :=
  ⟨by decide, by decide⟩

/-- Claim C5 as amended: the shape-B substitution runs on the output of
the shape-A substitution, and whenever its pattern is not found in that
output the result is exactly shape A's output (universal) — so shape A can
preempt shape B entirely, as on `exPreempt`, whose quoted metadata value
lets shape A fire across the quotes.  The promised rewrite
`logError(error, {<metadata>}, "<message>")` is established on Example 2
of the spec (alone and with surrounding text) and on the nested-brace
metadata `exNested`; metadata containing a closing brace followed by a
closing parenthesis is cut short instead (counterexample). -/
theorem c5_theorem :
    (∀ content : String, strSearch patB (strSub patA tplA content) = false →
        replace_logger_with_logerror content = strSub patA tplA content) ∧
      replace_logger_with_logerror exMeta = exMetaOut ∧
      replace_logger_with_logerror ("f();\n" ++ exMeta ++ ";\ng();\n") =
        "f();\n" ++ exMetaOut ++ ";\ng();\n" ∧
      replace_logger_with_logerror exNested = exNestedOut ∧
      replace_logger_with_logerror exPreempt = exPreemptOut := by
  refine ⟨?_, by decide, by decide, by decide, by decide⟩
  intro content h
  unfold replace_logger_with_logerror
  exact strSub_id_of_search_false patB tplB _ h

/-- Witness for the amended claim C5: on `exPreempt` shape A consumes the
call, shape B finds nothing afterwards, and the result is exactly shape
A's output. -/
theorem c5_witness :
    replace_logger_with_logerror exPreempt = strSub patA tplA exPreempt :=
  c5_theorem.1 exPreempt (by decide)

/-- Claim C6, counterexample: `exCatchNS` contains no occurrence of the
exact textual shape `catch (error)` (it has `catch(error)` with no space),
yet `modify_catch_blocks` changes it — the pattern allows arbitrary
whitespace, so text outside the exact shape is also altered. -/
theorem c6_counterexample :
    containsStr exCatchNS "catch (error)" = false ∧
      modify_catch_blocks exCatchNS = exCatchNSOut ∧ exCatchNS ≠ exCatchNSOut :=
  ⟨by decide, by decide, by decide⟩

/-- Claim C6 as amended: `modify_catch_blocks` rewrites the
whitespace-flexible shape `catch` `(` `error` `)` — not only the exact
text `catch (error)` — to `catch (error: unknown)` (Example 4 of the spec
proved), and every text in which that shape is not found anywhere is left
byte-identical (universal); clauses already annotated, with a different
binding name, or with no parameter are of that kind (witness). -/
theorem c6_theorem :
    (∀ content : String, strSearch patCatch content = false →
        modify_catch_blocks content = content) ∧
      modify_catch_blocks exCatch = exCatchOut := by
  refine ⟨?_, by decide⟩
  intro content h
  unfold modify_catch_blocks
  exact strSub_id_of_search_false patCatch tplCatch content h

/-- Witness for the amended claim C6: the annotated clause, the
differently-named clause and the parameterless clause contain no
occurrence of the pattern and are left byte-identical. -/
theorem c6_witness :
    strSearch patCatch exCatchAnn = false ∧
      strSearch patCatch exCatchName = false ∧
      strSearch patCatch exCatchNone = false ∧
      modify_catch_blocks exCatchAnn = exCatchAnn ∧
      modify_catch_blocks exCatchName = exCatchName ∧
      modify_catch_blocks exCatchNone = exCatchNone :=
  ⟨by decide, by decide, by decide,
    c6_theorem.1 exCatchAnn (by decide),
    c6_theorem.1 exCatchName (by decide),
    c6_theorem.1 exCatchNone (by decide)⟩

/-- Claim C7, counterexample: the import-reconciliation pair is not
idempotent.  On `exChain`, deleting the inner logger import concatenates
the surrounding text into a fresh sole-name logger import, which only a
second application removes, so applying the pair twice differs from
applying it once. -/
theorem c7_counterexample :
    importPair exChain = exChainOnce ∧ importPair exChainOnce = exChainTwice ∧
      exChainOnce ≠ exChainTwice :=
  ⟨by decide, by decide, by decide⟩

/-- Claim C7 as amended: applying the pair twice equals applying it once
whenever the once-reconciled text carries a braced `logError` import (so
the adder's guard fires) and the removal step is a no-op on it; the
counterexample shows the unconditional statement fails. -/
theorem c7_theorem (x : String)
    (h1 : strSearch pat32 (importPair x) = true)
    (h2 : remove_logger_import (importPair x) = importPair x) :
    importPair (importPair x) = importPair x := by
  have hadd : add_error_handler_import (importPair x) = importPair x := by
    simp [add_error_handler_import, h1]
  have hdef : importPair (importPair x) =
      remove_logger_import (add_error_handler_import (importPair x)) := rfl
  rw [hdef, hadd, h2]

/-- Witness for the amended claim C7: a typical once-converted text, on
which the pair acts (it swaps the logger import for the logError import)
and is then stable. -/
theorem c7_witness : importPair (importPair exPipe) = importPair exPipe :=
  c7_theorem exPipe (by decide) (by decide)

/-- Claim C8: a read error or a write error is caught inside
`process_file`, which prints one message containing the file path and the
underlying error, returns `False`, and lets `process_directories` continue
with the remaining files. -/
theorem c8_theorem (path e content ew : String) (w : Option String)
    (rest : List (String × Except String String × Option String))
    (h : transform content ≠ content) :
    process_file path (Except.error e) w =
        ⟨false, ["Error processing " ++ path ++ ": " ++ e], none⟩ ∧
      process_file path (Except.ok content) (some ew) =
        ⟨false, ["Error processing " ++ path ++ ": " ++ ew], none⟩ ∧
      process_directories ((path, Except.error e, w) :: rest) =
        process_directories rest := by
  refine ⟨rfl, ?_, ?_⟩
  · simp [process_file, h]
  · simp [process_directories, process_file]

/-- Witness for claim C8: an unreadable file and an unwritable file are
both reported as unchanged with a printed message, and processing
continues with the next file. -/
theorem c8_witness :
    process_file "a.ts" (Except.error "boom") none =
        ⟨false, ["Error processing " ++ "a.ts" ++ ": " ++ "boom"], none⟩ ∧
      process_file "a.ts" (Except.ok exStartsError) (some "denied") =
        ⟨false, ["Error processing " ++ "a.ts" ++ ": " ++ "denied"], none⟩ ∧
      process_directories [("a.ts", Except.error "boom", none),
          ("b.ts", Except.ok exPlain, none)] =
        process_directories [("b.ts", Except.ok exPlain, none)] :=
  c8_theorem "a.ts" "boom" exStartsError "denied" none
    [("b.ts", Except.ok exPlain, none)] (by decide)

/-- Claim C9: whenever the input matches the braced-import guard
pattern `import\s+\{.*logError.*\}\s+from` — in particular when the name
list only contains `logError` as part of a longer name such as
`logErrorBoundary`, from any module path — `add_error_handler_import`
returns the input unchanged. -/
theorem c9_theorem (content : String) (h : strSearch pat32 content = true) :
    add_error_handler_import content = content := by
  simp [add_error_handler_import, h]

/-- Witness for claim C9: a file importing only `logErrorBoundary` from an
unrelated module gets no `logError` import added. -/
theorem c9_witness :
    strSearch pat32 exBoundary = true ∧
      add_error_handler_import exBoundary = exBoundary :=
  ⟨by decide, c9_theorem exBoundary (by decide)⟩

/-- Claim C10, counterexample: the multi-name declaration `exMulti3` lists
`logger` as its first named import and no other use of `logger` remains,
yet `remove_logger_import` does not leave it byte-identical: the later,
comma-preceded occurrence of `logger` is removed. -/
theorem c10_counterexample :
    check_logger_import exMulti3 = false ∧
      remove_logger_import exMulti3 = exMulti3Out ∧ exMulti3 ≠ exMulti3Out :=
  ⟨by decide, by decide, by decide⟩

/-- Claim C10 as amended: `remove_logger_import` returns its input
byte-identical whenever no `logger.info`, `logger.warn` or `logger.debug`
use remains and none of its four removal patterns is found in the text
(universal); the claim's example declaration
text `import { logger, helper } from '@/lib/utils/logger';` — where
`logger` appears only as the first named import — is of that kind, with
and without trailing code (witness).  A declaration listing `logger` first
is edited nevertheless when `logger` also occurs later preceded by a comma
(counterexample), consistent with removal only ever affecting a sole-name
`logger` or a comma-preceded `logger`. -/
theorem c10_theorem (content : String)
    (hc : check_logger_import content = false)
    (h1 : strSearch patR1 content = false) (h2 : strSearch patR2 content = false)
    (h3 : strSearch patR3 content = false) (h4 : strSearch patR4 content = false) :
    remove_logger_import content = content := by
  have hrem : remove_logger_import content =
      strSub patR4 tplEmpty (strSub patR3 tplR3 (strSub patR2 tplR2
        (strSub patR1 tplEmpty content))) := by
    simp [remove_logger_import, hc]
  rw [hrem, strSub_id_of_search_false patR1 tplEmpty content h1,
    strSub_id_of_search_false patR2 tplR2 content h2,
    strSub_id_of_search_false patR3 tplR3 content h3,
    strSub_id_of_search_false patR4 tplEmpty content h4]

/-- Witness for the amended claim C10: the logger-first multi-name import,
alone and with trailing code, is left byte-identical. -/
theorem c10_witness :
    remove_logger_import exMulti = exMulti ∧
      remove_logger_import exMulti2 = exMulti2 :=
  ⟨c10_theorem exMulti (by decide) (by decide) (by decide) (by decide) (by decide),
    c10_theorem exMulti2 (by decide) (by decide) (by decide) (by decide) (by decide)⟩

end ConvertLogger
